import Mathlib

/-!
Shallow embedding of the Galium compositor core (packages/Gallium) for
checking the natural-language specification against the code.

Machine integers are modelled over ℤ and ℕ with explicit reduction
modulo 2^32 / 2^64 where the C performs unsigned arithmetic.  The
external libraries the code calls (wayland lists, pixman regions and
images) are modelled by their documented semantics: a wl_list is a Lean
list whose head is the most recently inserted element
(wl_list_insert with the list head inserts at the front,
wl_list_for_each walks from the front), a pixman region is the set of
integer points it covers, and a pixman image is a pixel function with
width and height.  Allocation failure paths (calloc, wl_resource_create
returning NULL) are not modelled: every allocation succeeds, which is
the path all the claims speak about.
-/

namespace Galium

/-- MAX_SURFACES_PER_CLIENT from include/security.h. -/
def MAX_SURFACES_PER_CLIENT : ℕ := 100

/-- MAX_BUFFER_WIDTH from include/security.h. -/
def MAX_BUFFER_WIDTH : ℕ := 3840

/-- MAX_BUFFER_HEIGHT from include/security.h. -/
def MAX_BUFFER_HEIGHT : ℕ := 2160

/-- The value of a C `(uint32_t)x` cast of a signed 32-bit value,
as a natural number. -/
def toUInt32 (x : ℤ) : ℕ := (x % (2 ^ 32 : ℤ)).toNat

/-- struct client_security from include/security.h.
`vm_id` is never written by the core and stays 0; it is omitted. -/
structure client_security where
  pid : ℤ
  uid : ℤ
  gid : ℤ
  is_vm : Bool
  surface_count : ℕ
deriving DecidableEq, Repr

/-- The credentials the transport reports for a connecting client:
what wl_client_get_credentials writes, together with the result of the
is_vm_process command-line heuristic (an external /proc read). -/
structure ClientCreds where
  pid : ℤ
  uid : ℤ
  gid : ℤ
  isVm : Bool
deriving DecidableEq, Repr

/-- validate_client_credentials from security.c: writes pid/uid/gid
read from the transport into `sec`, fails if pid ≤ 0, otherwise sets
is_vm from the heuristic and resets surface_count to 0.  Returns the
updated entry together with the boolean result.  The caller passes a
calloc-zeroed entry. -/
def validate_client_credentials (creds : ClientCreds) (sec : client_security) :
    client_security × Bool :=
  let sec := { sec with pid := creds.pid, uid := creds.uid, gid := creds.gid }
  if creds.pid ≤ 0 then
    (sec, false)
  else
    ({ sec with is_vm := creds.isVm, surface_count := 0 }, true)

/-- check_surface_limit from security.c: false on a NULL client, false
once surface_count has reached MAX_SURFACES_PER_CLIENT, true below it. -/
def check_surface_limit (client : Option client_security) : Bool :=
  match client with
  | none => false
  | some c => if MAX_SURFACES_PER_CLIENT ≤ c.surface_count then false else true

/-- validate_geometry from security.c.  `x` and `y` are the int32
parameters; `width` and `height` are the uint32 parameters (values
below 2^32).  The C line `width > INT32_MAX - (uint32_t)x` is unsigned
32-bit arithmetic, hence the explicit mod 2^32 of the difference. -/
def validate_geometry (x y : ℤ) (width height : ℕ) : Bool :=
  if 2 ^ 31 ≤ width ∨ 2 ^ 31 ≤ height then
    false
  else if (2 ^ 31 - 1 + 2 ^ 32 - toUInt32 x) % 2 ^ 32 < width
      ∨ (2 ^ 31 - 1 + 2 ^ 32 - toUInt32 y) % 2 ^ 32 < height then
    false
  else if MAX_BUFFER_WIDTH < width ∨ MAX_BUFFER_HEIGHT < height then
    false
  else if width = 0 ∨ height = 0 then
    false
  else
    true

/-- validate_buffer_size from security.c.  `width` and `height` are the
uint32 parameters.  The pixel count and byte count are computed in
uint64; the comparison `bytes > SIZE_MAX` is against the 64-bit
SIZE_MAX and can never hold for a uint64 value, which the embedding
keeps as written. -/
def validate_buffer_size (width height : ℕ) : Bool :=
  if MAX_BUFFER_WIDTH < width ∨ MAX_BUFFER_HEIGHT < height then
    false
  else
    let pixels := width * height % 2 ^ 64
    let bytes := pixels * 4 % 2 ^ 64
    if 2 ^ 64 - 1 < bytes then false else true

/-- One ARGB pixel, channels 0..255 (a8r8g8b8, premultiplied alpha). -/
structure Pixel where
  a : ℕ
  r : ℕ
  g : ℕ
  b : ℕ
deriving DecidableEq, Repr

/-- Pixman's rounded 8-bit fixed point multiply
(MUL_UN8 in pixman-combine32.h): t = a*b + 128; (t/256 + t)/256. -/
def mul_un8 (x y : ℕ) : ℕ := ((x * y + 128) / 256 + (x * y + 128)) / 256

/-- Pixman's saturating 8-bit add (ADD_UN8). -/
def add_un8 (x y : ℕ) : ℕ := min (x + y) 255

/-- PIXMAN_OP_OVER on premultiplied pixels: each destination channel
becomes src + dest*(255 - src.a), with pixman's rounding and
saturation. -/
def pixman_over (s d : Pixel) : Pixel :=
  { a := add_un8 s.a (mul_un8 (255 - s.a) d.a)
    r := add_un8 s.r (mul_un8 (255 - s.a) d.r)
    g := add_un8 s.g (mul_un8 (255 - s.a) d.g)
    b := add_un8 s.b (mul_un8 (255 - s.a) d.b) }

/-- A pixman image: a width × height grid of pixels.  The pixel
function is sampled only inside the extents. -/
structure pixman_image where
  width : ℕ
  height : ℕ
  pixel : ℕ → ℕ → Pixel

/-- A solid single-colour image, for concrete scenarios. -/
def solid_image (w h : ℕ) (p : Pixel) : pixman_image :=
  { width := w, height := h, pixel := fun _ _ => p }

/-- A wl_buffer resource as surface_attach sees it: a resource handle,
together with what shm_buffer_get_image would yield for it (none when
wl_shm_buffer_get fails). -/
structure wl_buffer_res where
  rid : ℕ
  image : Option pixman_image

/-- The set of integer points covered by a `pixman_region32_union_rect`
rectangle with corner (x,y) and unsigned extent w × h. -/
def rectSet (x y : ℤ) (w h : ℕ) : Set (ℤ × ℤ) :=
  {p | x ≤ p.1 ∧ p.1 < x + w ∧ y ≤ p.2 ∧ p.2 < y + h}

/-- struct galium_surface from include/compositor.h.  `sid` stands for
the wl resource identity; `buffer_resource` holds the attached
resource's handle; `damage` is the point set of the pixman region;
`client_sec` is the entry compositor_create_surface allocated for this
surface (none when that calloc failed). -/
structure galium_surface where
  sid : ℕ
  x : ℤ
  y : ℤ
  width : ℤ
  height : ℤ
  buffer_resource : Option ℕ
  image : Option pixman_image
  damage : Set (ℤ × ℤ)
  client_sec : Option client_security

/-- surface_attach from the compositor request handlers: returns
unchanged when the surface has no client security context; otherwise
stores the (possibly NULL) buffer resource, and only when a buffer was
given unrefs the old image, fetches the new image, and on success
updates width/height from it. -/
def surface_attach (surface : galium_surface) (buffer : Option wl_buffer_res)
    (dx dy : ℤ) : galium_surface :=
  match surface.client_sec with
  | none => surface
  | some _ =>
    let surface := { surface with buffer_resource := buffer.map wl_buffer_res.rid }
    match buffer with
    | none => surface
    | some b =>
      let surface := { surface with image := b.image }
      match b.image with
      | none => surface
      | some img => { surface with width := (img.width : ℤ), height := (img.height : ℤ) }

/-- surface_damage from the compositor request handlers: the int32
width/height are converted to uint32 for validate_geometry; a rejected
rectangle leaves the region untouched, an accepted one is unioned in. -/
def surface_damage (surface : galium_surface) (x y w h : ℤ) : galium_surface :=
  if validate_geometry x y (toUInt32 w) (toUInt32 h) = false then
    surface
  else
    { surface with damage := surface.damage ∪ rectSet x y (toUInt32 w) (toUInt32 h) }

/-- struct galium_output: position, fixed size, the framebuffer as a
pixel function (coordinate (i,j) of the a8r8g8b8 fb_data array), and
the damage region. -/
structure galium_output where
  x : ℤ
  y : ℤ
  width : ℤ
  height : ℤ
  pix : ℕ → ℕ → Pixel
  damage : Set (ℤ × ℤ)

/-- output_create from the output code: position (0,0), the given
size, a framebuffer of width*height 32-bit pixels memset to 0 (so every
pixel is 0x00000000: alpha 0, red 0, green 0, blue 0), and an empty
damage region. -/
def output_create (width height : ℤ) : galium_output :=
  { x := 0, y := 0, width := width, height := height
    pix := fun _ _ => { a := 0, r := 0, g := 0, b := 0 }
    damage := ∅ }

/-- The renderer's background fill colour: pixman_color_t
{0x2000,0x2000,0x2000,0xffff} narrowed to 8 bits per channel. -/
def bg_pixel : Pixel := { a := 0xFF, r := 0x20, g := 0x20, b := 0x20 }

/-- One pixman_image_composite32(PIXMAN_OP_OVER, img, NULL, fb, 0,0,
0,0, dx,dy, cw,ch) call: inside the composite rectangle, clipped to the
destination extents and the source extents, the destination pixel is
blended under the source pixel; elsewhere it is unchanged. -/
def composite_over_image (fbpix : ℕ → ℕ → Pixel) (img : pixman_image)
    (dx dy cw ch ow oh : ℤ) : ℕ → ℕ → Pixel :=
  fun i j =>
    if dx ≤ (i : ℤ) ∧ (i : ℤ) < dx + cw ∧ dy ≤ (j : ℤ) ∧ (j : ℤ) < dy + ch
        ∧ (i : ℤ) < ow ∧ (j : ℤ) < oh
        ∧ (i : ℤ) - dx < (img.width : ℤ) ∧ (j : ℤ) - dy < (img.height : ℤ) then
      pixman_over (img.pixel ((i : ℤ) - dx).toNat ((j : ℤ) - dy).toNat) (fbpix i j)
    else
      fbpix i j

/-- renderer_repaint_output from the renderer: fill the whole
framebuffer with the background colour by a direct OP_SRC copy, then
walk the surface list from its head and OP_OVER-composite every surface
that has an image at (surface.x, surface.y) with the surface's
width/height as the composite extent. -/
def renderer_repaint_output (output : galium_output)
    (surfaces : List galium_surface) : galium_output :=
  let fb0 : ℕ → ℕ → Pixel := fun i j =>
    if (i : ℤ) < output.width ∧ (j : ℤ) < output.height then bg_pixel
    else output.pix i j
  let finalPix := surfaces.foldl
    (fun fbpix s =>
      match s.image with
      | none => fbpix
      | some img =>
        composite_over_image fbpix img s.x s.y s.width s.height
          output.width output.height)
    fb0
  { output with pix := finalPix }

/-- output_repaint: render all surfaces into this output, then clear
the output's damage region.  The frame-snapshot file write is
diagnostic I/O and is not part of the state. -/
def output_repaint (output : galium_output)
    (surfaces : List galium_surface) : galium_output :=
  let output := renderer_repaint_output output surfaces
  { output with damage := ∅ }

/-- struct galium_compositor: the shared surface list and the security
context's client list, both wl_lists with the most recently inserted
element at the head; the outputs; and a counter supplying fresh surface
identities. -/
structure galium_compositor where
  surfaces : List galium_surface
  clients : List client_security
  outputs : List galium_output
  next_sid : ℕ

/-- compositor_create_surface: calloc a zeroed surface, calloc a zeroed
client_security entry, fill the entry via validate_client_credentials
(the boolean result is ignored by the code), insert the entry at the
head of the security context's client list, and insert the surface at
the head of the compositor's surface list. -/
def compositor_create_surface (c : galium_compositor) (creds : ClientCreds) :
    galium_compositor :=
  let sec0 : client_security :=
    { pid := 0, uid := 0, gid := 0, is_vm := false, surface_count := 0 }
  let sec := (validate_client_credentials creds sec0).1
  let surface : galium_surface :=
    { sid := c.next_sid, x := 0, y := 0, width := 0, height := 0
      buffer_resource := none, image := none, damage := ∅
      client_sec := some sec }
  { c with
    surfaces := surface :: c.surfaces
    clients := sec :: c.clients
    next_sid := c.next_sid + 1 }

/-- The client requests the dispatch loop feeds to the handlers above. -/
inductive Request where
  | createSurface (creds : ClientCreds)
  | attach (sid : ℕ) (buffer : Option wl_buffer_res) (dx dy : ℤ)
  | damage (sid : ℕ) (x y w h : ℤ)
  | commit (sid : ℕ)
  | destroySurface (sid : ℕ)

/-- Apply a per-surface handler to the surface a request's resource
designates. -/
def updateSurface (c : galium_compositor) (sid : ℕ)
    (f : galium_surface → galium_surface) : galium_compositor :=
  { c with surfaces := c.surfaces.map fun s => if s.sid = sid then f s else s }

/-- One dispatch step.  surface_commit repaints every output with the
current surface list; surface_resource_destroy removes the surface from
the list (its client_security entry stays in the registry, as in the
code). -/
def step (c : galium_compositor) : Request → galium_compositor
  | .createSurface creds => compositor_create_surface c creds
  | .attach sid buffer dx dy => updateSurface c sid fun s => surface_attach s buffer dx dy
  | .damage sid x y w h => updateSurface c sid fun s => surface_damage s x y w h
  | .commit _sid =>
    { c with outputs := c.outputs.map fun o => output_repaint o c.surfaces }
  | .destroySurface sid =>
    { c with surfaces := c.surfaces.filter fun s => s.sid ≠ sid }

/-- Dispatch a request sequence. -/
def run (reqs : List Request) (c : galium_compositor) : galium_compositor :=
  reqs.foldl step c

/-- The compositor state main() reaches before serving clients: empty
surface and client lists and one 800×600 output. -/
def galium_initial : galium_compositor :=
  { surfaces := [], clients := [], outputs := [output_create 800 600], next_sid := 0 }

/-- Recognizer for create-surface requests. -/
def isCreateSurface : Request → Bool
  | .createSurface _ => true
  | _ => false

/-- The wl_shm error codes shm_pool_create_buffer can post. -/
inductive wl_shm_error where
  | invalid_stride
  | invalid_format
deriving DecidableEq, Repr

/-- WL_SHM_FORMAT_ARGB8888 wire value. -/
def WL_SHM_FORMAT_ARGB8888 : ℕ := 0

/-- WL_SHM_FORMAT_XRGB8888 wire value. -/
def WL_SHM_FORMAT_XRGB8888 : ℕ := 1

/-- struct galium_shm_buffer from shm.c (the resource pointers are
identity bookkeeping and are left out). -/
structure galium_shm_buffer where
  width : ℤ
  height : ℤ
deriving DecidableEq, Repr

/-- shm_pool_create_buffer from shm.c: the int32 width/height are
converted to uint32 for validate_buffer_size; a failed size check posts
INVALID_STRIDE, an unsupported format posts INVALID_FORMAT, otherwise a
buffer recording the int32 width/height is created.  offset and stride
are accepted but unused, as in the code. -/
def shm_pool_create_buffer (offset width height stride : ℤ) (format : ℕ) :
    Except wl_shm_error galium_shm_buffer :=
  if validate_buffer_size (toUInt32 width) (toUInt32 height) = false then
    .error .invalid_stride
  else if format ≠ WL_SHM_FORMAT_ARGB8888 ∧ format ≠ WL_SHM_FORMAT_XRGB8888 then
    .error .invalid_format
  else
    let _ := offset
    let _ := stride
    .ok { width := width, height := height }

/-!
Helper lemmas shared by the claim theorems.
-/

/-- The C expression `INT32_MAX - (uint32_t)x`, evaluated in unsigned
32-bit arithmetic, equals the mathematical value `2^31 - 1 - x` for
every int32 `x`. -/
lemma usub32_int32max (x : ℤ) (h1 : -2 ^ 31 ≤ x) (h2 : x < 2 ^ 31) :
    (2 ^ 31 - 1 + 2 ^ 32 - toUInt32 x) % 2 ^ 32 = ((2 ^ 31 - 1 : ℤ) - x).toNat := by
  unfold toUInt32
  omega

/-- validate_buffer_size accepts exactly the dimensions within the
3840×2160 bound: the uint64 byte-count comparison against SIZE_MAX can
never reject. -/
lemma validate_buffer_size_iff (w h : ℕ) :
    validate_buffer_size w h = true ↔ w ≤ 3840 ∧ h ≤ 2160 := by
  unfold validate_buffer_size MAX_BUFFER_WIDTH MAX_BUFFER_HEIGHT
  by_cases hc1 : 3840 < w ∨ 2160 < h
  · rw [if_pos hc1]
    simp only [Bool.false_eq_true, false_iff]
    omega
  · rw [if_neg hc1]
    show (if 2 ^ 64 - 1 < w * h % 2 ^ 64 * 4 % 2 ^ 64 then false else true) = true
        ↔ w ≤ 3840 ∧ h ≤ 2160
    rw [if_neg (show ¬(2 ^ 64 - 1 < w * h % 2 ^ 64 * 4 % 2 ^ 64) by omega)]
    exact iff_of_true rfl (by omega)

/-!
Claim theorems.
-/

/-- C7: validate_geometry(x, y, width, height) returns false when
width=0, when height=0, when width or height read as int32 is negative,
when width or height exceeds 3840×2160, and whenever the mathematical
sum x+width or y+height exceeds the signed 32-bit maximum; it returns
true otherwise. -/
theorem validate_geometry_spec (x y : ℤ) (width height : ℕ)
    (hx1 : -2 ^ 31 ≤ x) (hx2 : x < 2 ^ 31)
    (hy1 : -2 ^ 31 ≤ y) (hy2 : y < 2 ^ 31)
    (hw : width < 2 ^ 32) (hh : height < 2 ^ 32) :
    validate_geometry x y width height = true ↔
      (width ≠ 0 ∧ height ≠ 0 ∧ width < 2 ^ 31 ∧ height < 2 ^ 31 ∧
        width ≤ MAX_BUFFER_WIDTH ∧ height ≤ MAX_BUFFER_HEIGHT ∧
        x + width ≤ 2 ^ 31 - 1 ∧ y + height ≤ 2 ^ 31 - 1) := by
  unfold validate_geometry
  rw [usub32_int32max x hx1 hx2, usub32_int32max y hy1 hy2]
  unfold MAX_BUFFER_WIDTH MAX_BUFFER_HEIGHT
  split_ifs with h1 h2 h3 h4
  · simp only [Bool.false_eq_true, false_iff]
    omega
  · simp only [Bool.false_eq_true, false_iff]
    omega
  · simp only [Bool.false_eq_true, false_iff]
    omega
  · simp only [Bool.false_eq_true, false_iff]
    omega
  · refine iff_of_true rfl ?_
    omega

/-- Witness for C7 at x=5, y=7, width=100, height=200. -/
theorem validate_geometry_spec_witness :
    validate_geometry 5 7 100 200 = true ↔
      ((100 : ℕ) ≠ 0 ∧ (200 : ℕ) ≠ 0 ∧ (100 : ℕ) < 2 ^ 31 ∧ (200 : ℕ) < 2 ^ 31 ∧
        (100 : ℕ) ≤ MAX_BUFFER_WIDTH ∧ (200 : ℕ) ≤ MAX_BUFFER_HEIGHT ∧
        (5 : ℤ) + ((100 : ℕ) : ℤ) ≤ 2 ^ 31 - 1 ∧
        (7 : ℤ) + ((200 : ℕ) : ℤ) ≤ 2 ^ 31 - 1) :=
  validate_geometry_spec 5 7 100 200 (by decide) (by decide) (by decide) (by decide)
    (by decide) (by decide)

/-- C8: validate_buffer_size rejects 3841×1000, accepts 3840×2160, and
rejects 3840×2161. -/
theorem validate_buffer_size_examples :
    validate_buffer_size 3841 1000 = false ∧
    validate_buffer_size 3840 2160 = true ∧
    validate_buffer_size 3840 2161 = false := by
  decide

/-- C5 counterexample: the framebuffer pixel (0,0) immediately after
output_create(800,600) is the all-zero pixel, not opaque black — its
alpha channel is 0, not 0xFF. -/
theorem output_create_pixel_not_opaque_black :
    (output_create 800 600).pix 0 0 ≠ { a := 0xFF, r := 0, g := 0, b := 0 } := by
  decide

/-- C5 amended: immediately after output_create(width, height) the
output has exactly the given size and every framebuffer pixel is the
all-zero 32-bit value (transparent black: alpha 0 and RGB 0), since the
framebuffer is memset to 0. -/
theorem output_create_framebuffer_zeroed (width height : ℤ) (i j : ℕ) :
    (output_create width height).width = width ∧
    (output_create width height).height = height ∧
    (output_create width height).pix i j = { a := 0, r := 0, g := 0, b := 0 } :=
  ⟨rfl, rfl, rfl⟩

/-- C6 counterexample: a create_buffer request with width=0 and
height=0 is not rejected — it produces a buffer whose width is 0,
violating the claimed invariant 0 < width. -/
theorem shm_pool_create_buffer_accepts_zero_size :
    shm_pool_create_buffer 0 0 0 0 WL_SHM_FORMAT_ARGB8888
        = .ok { width := 0, height := 0 } ∧
    ¬(0 < (0 : ℤ)) := by
  refine ⟨rfl, by decide⟩

/-- C6 amended: every buffer successfully created by
shm_pool_create_buffer satisfies 0 ≤ width ≤ 3840 and
0 ≤ height ≤ 2160 (zero dimensions are accepted), hence
width*height*4 fits the 64-bit size type; a request whose dimensions
fail validate_buffer_size is rejected with an error and no buffer is
created. -/
theorem shm_pool_create_buffer_bounds (offset width height stride : ℤ) (format : ℕ)
    (hw1 : -2 ^ 31 ≤ width) (hw2 : width < 2 ^ 31)
    (hh1 : -2 ^ 31 ≤ height) (hh2 : height < 2 ^ 31) :
    (∀ b, shm_pool_create_buffer offset width height stride format = .ok b →
        0 ≤ b.width ∧ b.width ≤ 3840 ∧ 0 ≤ b.height ∧ b.height ≤ 2160 ∧
        b.width * b.height * 4 ≤ 2 ^ 64 - 1) ∧
    (validate_buffer_size (toUInt32 width) (toUInt32 height) = false →
        shm_pool_create_buffer offset width height stride format
          = .error .invalid_stride) := by
  constructor
  · intro b hok
    unfold shm_pool_create_buffer at hok
    split_ifs at hok with hv hf
    simp only [Bool.not_eq_false] at hv
    obtain ⟨hbw, hbh⟩ := (validate_buffer_size_iff _ _).mp hv
    unfold toUInt32 at hbw hbh
    have hwrange : 0 ≤ width ∧ width ≤ 3840 := by omega
    have hhrange : 0 ≤ height ∧ height ≤ 2160 := by omega
    have hb : b = { width := width, height := height } := by
      cases hok
      rfl
    subst hb
    refine ⟨hwrange.1, hwrange.2, hhrange.1, hhrange.2, ?_⟩
    nlinarith [hwrange.1, hwrange.2, hhrange.1, hhrange.2]
  · intro hv
    unfold shm_pool_create_buffer
    rw [if_pos hv]

/-- Witness for C6 amended at a 640×480 ARGB buffer request. -/
theorem shm_pool_create_buffer_bounds_witness :
    (∀ b, shm_pool_create_buffer 0 640 480 2560 WL_SHM_FORMAT_ARGB8888 = .ok b →
        0 ≤ b.width ∧ b.width ≤ 3840 ∧ 0 ≤ b.height ∧ b.height ≤ 2160 ∧
        b.width * b.height * 4 ≤ 2 ^ 64 - 1) ∧
    (validate_buffer_size (toUInt32 640) (toUInt32 480) = false →
        shm_pool_create_buffer 0 640 480 2560 WL_SHM_FORMAT_ARGB8888
          = .error .invalid_stride) :=
  shm_pool_create_buffer_bounds 0 640 480 2560 WL_SHM_FORMAT_ARGB8888
    (by decide) (by decide) (by decide) (by decide)

/-- A surface value with nothing attached, used to instantiate the
per-surface theorems. -/
def sample_surface : galium_surface :=
  { sid := 0, x := 0, y := 0, width := 0, height := 0, buffer_resource := none
    image := none, damage := ∅, client_sec := none }

/-- C9: on a geometry-valid rectangle surface_damage unions the
rectangle's point set into the damage region, so damaging R1 then R2
yields the prior region united with R1 and R2; damaging R1 twice
leaves the same damage region as damaging it once; and a rectangle
validate_geometry rejects leaves the surface unchanged. -/
theorem surface_damage_union_spec (s : galium_surface)
    (x1 y1 w1 h1 x2 y2 w2 h2 x3 y3 w3 h3 : ℤ)
    (hv1 : validate_geometry x1 y1 (toUInt32 w1) (toUInt32 h1) = true)
    (hv2 : validate_geometry x2 y2 (toUInt32 w2) (toUInt32 h2) = true)
    (hv3 : validate_geometry x3 y3 (toUInt32 w3) (toUInt32 h3) = false) :
    (surface_damage (surface_damage s x1 y1 w1 h1) x2 y2 w2 h2).damage
        = s.damage ∪ rectSet x1 y1 (toUInt32 w1) (toUInt32 h1)
            ∪ rectSet x2 y2 (toUInt32 w2) (toUInt32 h2) ∧
    (surface_damage (surface_damage s x1 y1 w1 h1) x1 y1 w1 h1).damage
        = (surface_damage s x1 y1 w1 h1).damage ∧
    surface_damage s x3 y3 w3 h3 = s := by
  refine ⟨?_, ?_, ?_⟩
  · unfold surface_damage
    rw [hv1, hv2]
    rw [if_neg (by simp), if_neg (by simp)]
  · unfold surface_damage
    rw [hv1]
    rw [if_neg (by simp), if_neg (by simp)]
    simp only [Set.union_assoc, Set.union_self]
  · unfold surface_damage
    rw [hv3, if_pos rfl]

/-- Witness for C9 on rectangles (0,0,10,10), (5,5,20,20) and the
rejected rectangle (0,0,0,0). -/
theorem surface_damage_union_spec_witness :
    (surface_damage (surface_damage sample_surface 0 0 10 10) 5 5 20 20).damage
        = sample_surface.damage ∪ rectSet 0 0 (toUInt32 10) (toUInt32 10)
            ∪ rectSet 5 5 (toUInt32 20) (toUInt32 20) ∧
    (surface_damage (surface_damage sample_surface 0 0 10 10) 0 0 10 10).damage
        = (surface_damage sample_surface 0 0 10 10).damage ∧
    surface_damage sample_surface 0 0 0 0 = sample_surface :=
  surface_damage_union_spec sample_surface 0 0 10 10 5 5 20 20 0 0 0 0
    (by decide) (by decide) (by decide)

/-- The request sequence of one client (pid 7) creating 101 surfaces. -/
def hundred_one_creates : List Request :=
  List.replicate 101 (.createSurface { pid := 7, uid := 1000, gid := 1000, isVm := false })

/-- C2 evaluation at the failing input: after a client with pid 7 has
created 100 surfaces, its 101st create_surface request also succeeds —
101 surfaces owned by that client exist, every registry entry still
has surface_count = 0 (the counter is never incremented and
check_surface_limit is never called on the creation path), even though
check_surface_limit would refuse a client whose surface_count had
truthfully reached 100. -/
theorem surface_limit_not_enforced :
    (run hundred_one_creates galium_initial).surfaces.length = 101 ∧
    ((run hundred_one_creates galium_initial).surfaces.all fun s =>
        s.client_sec.any fun e => e.pid == 7) = true ∧
    ((run hundred_one_creates galium_initial).clients.all fun e =>
        e.surface_count == 0) = true ∧
    check_surface_limit
        (some { pid := 7, uid := 1000, gid := 1000, is_vm := false, surface_count := 100 })
      = false := by
  refine ⟨by decide, by decide, by decide, by decide⟩

/-- The request sequence of one client (pid 5) creating two surfaces. -/
def two_creates_same_client : List Request :=
  [.createSurface { pid := 5, uid := 1000, gid := 1000, isVm := false },
   .createSurface { pid := 5, uid := 1000, gid := 1000, isVm := false }]

/-- C4 counterexample: after the same client (pid 5) creates two
surfaces, the security registry holds two entries with pid 5 — the
second creation allocated a fresh entry instead of reusing the
existing one, so the registry is not limited to one entry per client. -/
theorem client_security_entry_duplicated :
    ¬((run two_creates_same_client galium_initial).clients.countP
        (fun e => e.pid == 5) ≤ 1) := by
  decide

/-- C4 amended: a fresh ClientSecurity entry is allocated and inserted
into the SecurityContext registry on every surface creation — entries
are created at surface-creation time (none exists at connection time)
but are not keyed or deduplicated by pid, so after any request
sequence the registry holds exactly one entry per create_surface
request ever dispatched, not one per client process. -/
theorem client_entry_per_surface_creation (reqs : List Request) :
    (run reqs galium_initial).clients.length = reqs.countP isCreateSurface := by
  have key : ∀ (l : List Request) (c : galium_compositor),
      (run l c).clients.length = c.clients.length + l.countP isCreateSurface := by
    intro l
    induction l with
    | nil => intro c; simp [run, List.countP_nil]
    | cons r rs ih =>
      intro c
      show (run rs (step c r)).clients.length = _
      rw [ih (step c r), List.countP_cons]
      cases r with
      | createSurface creds =>
        simp [step, compositor_create_surface, isCreateSurface]
        omega
      | attach sid b dx dy => simp [step, updateSurface, isCreateSurface]
      | damage sid x y w h => simp [step, updateSurface, isCreateSurface]
      | commit sid => simp [step, isCreateSurface]
      | destroySurface sid => simp [step, isCreateSurface]
  rw [key reqs galium_initial]
  simp [galium_initial]

/-- Opaque red, premultiplied ARGB. -/
def redPix : Pixel := { a := 255, r := 255, g := 0, b := 0 }

/-- Opaque blue, premultiplied ARGB. -/
def bluePix : Pixel := { a := 255, r := 0, g := 0, b := 255 }

/-- A surface that has a 1×1 opaque red buffer attached. -/
def attached_red_surface : galium_surface :=
  { sid := 0, x := 0, y := 0, width := 1, height := 1
    buffer_resource := some 3, image := some (solid_image 1 1 redPix), damage := ∅
    client_sec := some { pid := 5, uid := 1000, gid := 1000, is_vm := false, surface_count := 0 } }

/-- Multiplying by a zero 8-bit factor yields zero under pixman's
rounded fixed-point multiply. -/
lemma mul_un8_zero (y : ℕ) : mul_un8 0 y = 0 := by
  unfold mul_un8
  norm_num

/-- Source-over with a fully opaque source replaces the destination
pixel. -/
lemma pixman_over_opaque (s d : Pixel) (ha : s.a = 255)
    (hr : s.r ≤ 255) (hg : s.g ≤ 255) (hb : s.b ≤ 255) :
    pixman_over s d = s := by
  rcases s with ⟨a, r, g, b⟩
  simp only at ha hr hg hb
  subst ha
  unfold pixman_over add_un8
  simp only [Nat.sub_self, mul_un8_zero, Nat.add_zero]
  congr 1 <;> omega

/-- C3 counterexample: attaching none to a surface with a red buffer
clears the buffer reference but keeps the surface's image, so a
subsequent repaint still composites the old red content instead of
nothing — pixel (0,0) stays red, not background. -/
theorem attach_none_keeps_visible_content :
    (surface_attach attached_red_surface none 0 0).buffer_resource = none ∧
    (surface_attach attached_red_surface none 0 0).image
        = attached_red_surface.image ∧
    (renderer_repaint_output (output_create 800 600)
        [surface_attach attached_red_surface none 0 0]).pix 0 0 = redPix ∧
    redPix ≠ bg_pixel := by
  refine ⟨rfl, rfl, by decide, by decide⟩

/-- C3 amended: for a surface that has a client security context,
attach(none, dx, dy) replaces the attached buffer reference with none
but releases nothing and leaves every other surface field — in
particular the image that repaints composite — unchanged; the attach
request itself repaints no output. -/
theorem surface_attach_none_spec (s : galium_surface) (dx dy : ℤ)
    (c : galium_compositor) (sid : ℕ) (h : s.client_sec.isSome = true) :
    surface_attach s none dx dy = { s with buffer_resource := none } ∧
    (step c (.attach sid none dx dy)).outputs = c.outputs := by
  constructor
  · rcases s with ⟨ssid, sx, sy, sw, sh, br, img, dmg, cs⟩
    cases cs with
    | none => simp at h
    | some e => rfl
  · rfl

/-- Witness for C3 amended at the red-buffer surface. -/
theorem surface_attach_none_spec_witness :
    surface_attach attached_red_surface none 0 0
        = { attached_red_surface with buffer_resource := none } ∧
    (step galium_initial (.attach 0 none 0 0)).outputs = galium_initial.outputs :=
  surface_attach_none_spec attached_red_surface 0 0 galium_initial 0 rfl

/-- surface_attach never writes the position fields. -/
lemma surface_attach_position (s : galium_surface) (b : Option wl_buffer_res)
    (dx dy : ℤ) :
    (surface_attach s b dx dy).x = s.x ∧ (surface_attach s b dx dy).y = s.y := by
  rcases s with ⟨ssid, sx, sy, sw, sh, br, img, dmg, cs⟩
  cases cs with
  | none => exact ⟨rfl, rfl⟩
  | some e =>
    cases b with
    | none => exact ⟨rfl, rfl⟩
    | some bb =>
      rcases bb with ⟨rid, bimg⟩
      cases bimg with
      | none => exact ⟨rfl, rfl⟩
      | some im => exact ⟨rfl, rfl⟩

/-- surface_damage never writes the position fields. -/
lemma surface_damage_position (s : galium_surface) (x y w h : ℤ) :
    (surface_damage s x y w h).x = s.x ∧ (surface_damage s x y w h).y = s.y := by
  unfold surface_damage
  split_ifs <;> exact ⟨rfl, rfl⟩

/-- Every surface of a compositor state sits at the origin. -/
def surfaces_at_origin (c : galium_compositor) : Prop :=
  ∀ s ∈ c.surfaces, s.x = 0 ∧ s.y = 0

/-- Each dispatch step preserves the all-surfaces-at-origin invariant:
creation zeroes the position, attach and damage do not touch it, commit
and destroy do not modify surviving surfaces. -/
lemma step_preserves_origin (c : galium_compositor) (r : Request)
    (h : surfaces_at_origin c) : surfaces_at_origin (step c r) := by
  cases r with
  | createSurface creds =>
    intro s hs
    rcases List.mem_cons.mp hs with h1 | h2
    · subst h1; exact ⟨rfl, rfl⟩
    · exact h s h2
  | attach sid b dx dy =>
    intro s hs
    simp only [step, updateSurface, List.mem_map] at hs
    obtain ⟨t, ht, rfl⟩ := hs
    by_cases hts : t.sid = sid
    · rw [if_pos hts]
      obtain ⟨hx, hy⟩ := surface_attach_position t b dx dy
      obtain ⟨hx0, hy0⟩ := h t ht
      exact ⟨hx.trans hx0, hy.trans hy0⟩
    · rw [if_neg hts]
      exact h t ht
  | damage sid x y w hgt =>
    intro s hs
    simp only [step, updateSurface, List.mem_map] at hs
    obtain ⟨t, ht, rfl⟩ := hs
    by_cases hts : t.sid = sid
    · rw [if_pos hts]
      obtain ⟨hx, hy⟩ := surface_damage_position t x y w hgt
      obtain ⟨hx0, hy0⟩ := h t ht
      exact ⟨hx.trans hx0, hy.trans hy0⟩
    · rw [if_neg hts]
      exact h t ht
  | commit sid =>
    intro s hs
    exact h s hs
  | destroySurface sid =>
    intro s hs
    exact h s (List.mem_of_mem_filter hs)

/-- Dispatching any request sequence preserves the invariant. -/
lemma run_preserves_origin (reqs : List Request) :
    ∀ c, surfaces_at_origin c → surfaces_at_origin (run reqs c) := by
  induction reqs with
  | nil => intro c h; exact h
  | cons r rs ih => intro c h; exact ih _ (step_preserves_origin c r h)

/-- C10: after any request sequence dispatched from the initial state,
every live surface still has position (0,0): creation zero-initializes
x and y, attach ignores its dx/dy arguments, and no request writes the
position, so every surface is composited at the output origin. -/
theorem surface_position_always_origin (reqs : List Request) (s : galium_surface)
    (hs : s ∈ (run reqs galium_initial).surfaces) : s.x = 0 ∧ s.y = 0 :=
  run_preserves_origin reqs galium_initial
    (by intro t ht; simp [galium_initial] at ht) s hs

/-- The surface a single create request by pid 7 produces. -/
def created_surface_pid7 : galium_surface :=
  { sid := 0, x := 0, y := 0, width := 0, height := 0, buffer_resource := none
    image := none, damage := ∅
    client_sec := some { pid := 7, uid := 0, gid := 0, is_vm := false, surface_count := 0 } }

/-- Witness for C10 after one create_surface request. -/
theorem surface_position_always_origin_witness :
    created_surface_pid7.x = 0 ∧ created_surface_pid7.y = 0 :=
  surface_position_always_origin
    [.createSurface { pid := 7, uid := 0, gid := 0, isVm := false }]
    created_surface_pid7
    (by show created_surface_pid7 ∈ [created_surface_pid7]
        exact List.mem_singleton.mpr rfl)

/-- Creation of surface A with image imgA attached, then surface B with
image imgB attached, then a commit. -/
def scenario_two_surfaces (imgA imgB : pixman_image) : List Request :=
  [.createSurface { pid := 5, uid := 1000, gid := 1000, isVm := false },
   .attach 0 (some { rid := 10, image := some imgA }) 0 0,
   .createSurface { pid := 5, uid := 1000, gid := 1000, isVm := false },
   .attach 1 (some { rid := 11, image := some imgB }) 0 0,
   .commit 1]

/-- C1 counterexample: with opaque red surface A created before opaque
blue surface B, both covering pixel (50,50), the repainted framebuffer
holds A's red there, not B's blue — the later-created surface does not
obscure the earlier one. -/
theorem later_surface_not_painted_on_top :
    ((run (scenario_two_surfaces (solid_image 100 100 redPix) (solid_image 100 100 bluePix))
          galium_initial).outputs.head?.map fun o => o.pix 50 50) = some redPix ∧
    redPix ≠ bluePix := by
  refine ⟨by decide, by decide⟩

/-- C1 amended: surfaces are inserted at the head of the shared list
and repaint traverses from the head, so surfaces are painted in
reverse creation order and the EARLIER-created surface is painted last:
for opaque A created before B, both covering a pixel, the framebuffer
ends up with A's color there. -/
theorem earlier_surface_painted_on_top (imgA imgB : pixman_image) (px py : ℕ)
    (hA1 : px < imgA.width) (hA2 : py < imgA.height)
    (hB1 : px < imgB.width) (hB2 : py < imgB.height)
    (ho1 : px < 800) (ho2 : py < 600)
    (hpa : (imgA.pixel px py).a = 255)
    (hpr : (imgA.pixel px py).r ≤ 255)
    (hpg : (imgA.pixel px py).g ≤ 255)
    (hpb : (imgA.pixel px py).b ≤ 255) :
    ((run (scenario_two_surfaces imgA imgB) galium_initial).outputs.head?.map
        fun o => o.pix px py) = some (imgA.pixel px py) := by
  have hcond : (0 : ℤ) ≤ (px : ℤ) ∧ (px : ℤ) < 0 + (imgA.width : ℤ)
      ∧ (0 : ℤ) ≤ (py : ℤ) ∧ (py : ℤ) < 0 + (imgA.height : ℤ)
      ∧ (px : ℤ) < 800 ∧ (py : ℤ) < 600
      ∧ (px : ℤ) - 0 < (imgA.width : ℤ) ∧ (py : ℤ) - 0 < (imgA.height : ℤ) := by
    refine ⟨by omega, by omega, by omega, by omega, by omega, by omega, by omega, by omega⟩
  have hred : ∀ fbpix : ℕ → ℕ → Pixel,
      composite_over_image fbpix imgA 0 0 (imgA.width : ℤ) (imgA.height : ℤ) 800 600 px py
        = imgA.pixel px py := by
    intro fbpix
    unfold composite_over_image
    rw [if_pos hcond]
    rw [show ((px : ℤ) - 0).toNat = px by omega,
        show ((py : ℤ) - 0).toNat = py by omega]
    exact pixman_over_opaque _ _ hpa hpr hpg hpb
  have hrun : ((run (scenario_two_surfaces imgA imgB) galium_initial).outputs.head?.map
        fun o => o.pix px py)
      = some (composite_over_image
          (composite_over_image
            (fun i j => if (i : ℤ) < (800 : ℤ) ∧ (j : ℤ) < (600 : ℤ) then bg_pixel
              else Pixel.mk 0 0 0 0)
            imgB 0 0 (imgB.width : ℤ) (imgB.height : ℤ) 800 600)
          imgA 0 0 (imgA.width : ℤ) (imgA.height : ℤ) 800 600 px py) := rfl
  rw [hrun, hred]

/-- Witness for C1 amended at solid 100×100 red/blue surfaces and
pixel (60,60). -/
theorem earlier_surface_painted_on_top_witness :
    ((run (scenario_two_surfaces (solid_image 100 100 redPix) (solid_image 100 100 bluePix))
          galium_initial).outputs.head?.map fun o => o.pix 60 60)
      = some ((solid_image 100 100 redPix).pixel 60 60) :=
  earlier_surface_painted_on_top (solid_image 100 100 redPix) (solid_image 100 100 bluePix)
    60 60 (by decide) (by decide) (by decide) (by decide) (by decide) (by decide)
    (by decide) (by decide) (by decide) (by decide)

end Galium
